import Mathlib

/-!
Shallow embedding of the client-side state layer of a restaurant POS web
application (zustand stores: POS/menu/orders/payments, staff, auth,
locations).  Each store operation is modelled as a pure function from the
prior store state (plus an oracle describing the backend's responses) to
the final store state, the list of external interactions it performed (the
trace), the toasts it emitted, and the failure it re-threw to its caller,
if any.  Machine numbers are modelled as `Int`/`Nat`; fallible backend
calls return `Except`.  Optional TS fields become `Option`; purely
presentational record fields (images, modifiers, pricing rules) that no
operation reads are omitted from the record projections.
-/

deriving instance DecidableEq for Except

namespace POSApp

/-- Errors are carried opaquely (JS `Error` objects are only stored and re-thrown). -/
abbrev Err := String

/-- An opaque partial-record payload (`Partial<T>` / profile objects passed
through to the backend unchanged), modelled as key/value pairs. -/
abbrev Patch := List (String × String)

/-- The `UserRole` union type from `types/index.ts`. -/
inductive UserRole where
  | superAdmin | subSuperAdmin | businessOwner | storeManager
  | cashier | waiter | kitchenCrew | cleaningCrew
  deriving Repr, DecidableEq

/-- The application-side `User` view model composed by the auth store
(`auth.ts`, `signIn`): identity plus profile fields. -/
structure User where
  id : String
  email : String
  role : UserRole
  name : String
  restaurantId : Option String
  defaultLocationId : Option String
  locationId : Option String
  parentUserId : Option String
  managedRestaurantIds : Option (List String)
  preferredLanguage : String
  createdAt : Nat
  lastLoginAt : Option Nat
  deriving Repr, DecidableEq

/-- Order status union from `types/index.ts`. -/
inductive OrderStatus where
  | pending | confirmed | preparing | ready | completed | cancelled | pendingSync
  deriving Repr, DecidableEq

/-- Payment status union from `types/index.ts` (`Order.paymentStatus`). -/
inductive PayStatus where
  | pending | paid | refunded | pendingSync
  deriving Repr, DecidableEq

/-- The `Order` record as touched by the POS store (timestamps as `Nat`;
item list and presentational fields omitted — no modelled operation reads
them, and the offline-payment spread `{...order, status, paymentStatus,
updatedAt}` preserves them unchanged). -/
structure Order where
  id : String
  customerId : String
  total : Int
  status : OrderStatus
  paymentStatus : PayStatus
  createdAt : Nat
  updatedAt : Nat
  deriving Repr, DecidableEq

/-- The `MenuItem` record as touched by the POS store. -/
structure MenuItem where
  id : String
  name : String
  description : String
  price : Int
  category : String
  preparationTime : Int
  isAvailable : Bool
  currentStock : Option Int
  minStock : Option Int
  deriving Repr, DecidableEq

/-- `Omit<MenuItem, 'id'>` as passed to create-menu-item. -/
structure MenuItemDraft where
  name : String
  description : String
  price : Int
  category : String
  preparationTime : Int
  isAvailable : Bool
  currentStock : Option Int
  minStock : Option Int
  deriving Repr, DecidableEq

/-- The optional `details` argument of `processPayment`. -/
structure PaymentDetails where
  tipAmount : Option Int := none
  tipPercentage : Option Int := none
  taxAmount : Option Int := none
  taxRate : Option Int := none
  deriving Repr, DecidableEq

/-- A locally-identified offline payment record (`processPayment`,
offline branch): id is `"offline_" ++ timestamp ++ "_" ++ random suffix`. -/
structure OfflinePayment where
  id : String
  orderId : String
  amount : Int
  paymentMethod : String
  tipAmount : Int
  tipPercentage : Option Int
  taxAmount : Option Int
  taxRate : Option Int
  createdAt : Nat
  deriving Repr, DecidableEq

/-- The record passed to `queries.createPayment`. -/
structure PaymentInput where
  orderId : String
  amount : Int
  paymentMethod : String
  status : String
  tipAmount : Option Int
  tipPercentage : Option Int
  taxAmount : Option Int
  taxRate : Option Int
  deriving Repr, DecidableEq

/-- The payload handed to `OfflineManager.addToQueue('processPayment', …)`. -/
structure QueuePayload where
  orderId : String
  amount : Int
  paymentMethod : String
  tipAmount : Option Int
  tipPercentage : Option Int
  taxAmount : Option Int
  taxRate : Option Int
  deriving Repr, DecidableEq

/-- One element of the `payments` array given to `processSplitPayment`. -/
structure SubPayment where
  amount : Int
  method : String
  tipAmount : Option Int
  taxAmount : Option Int
  deriving Repr, DecidableEq

/-- External interactions a POS-store operation can perform, in order. -/
inductive Event where
  | getMenuItemsCall
  | getOrdersCall
  | getOfflinePaymentsCall
  | createMenuItemCall (draft : MenuItemDraft)
  | updateMenuItemCall (menuItemId : String) (updates : Patch)
  | updateMenuItemStockCall (menuItemId : String) (newStock : Int) (kind : String)
      (quantityChange : Int) (userId : String) (notes : Option String) (reason : Option String)
  | createOrderCall (order : Patch)
  | updateOrderStatusCall (orderId : String) (status : OrderStatus)
  | createPaymentCall (input : PaymentInput)
  | processOfflineQueueCall
  | processOfflinePaymentsCall
  | storeOfflinePaymentLocal (p : OfflinePayment)
  | queueAdd (opName : String) (payload : QueuePayload)
  | toastMsg (message : String)
  deriving Repr, DecidableEq

/-- Whether an event is an invocation of the hosted backend (a `queries.*`
call), as opposed to local persistence, the offline queue, or a toast. -/
def Event.isBackendCall : Event → Bool
  | .storeOfflinePaymentLocal _ => false
  | .queueAdd _ _ => false
  | .toastMsg _ => false
  | _ => true

/-- Whether an event is a write to local (IndexedDB) payment storage. -/
def Event.isLocalStore : Event → Bool
  | .storeOfflinePaymentLocal _ => true
  | _ => false

/-- Whether an event is an append to the offline operation queue. -/
def Event.isQueueAdd : Event → Bool
  | .queueAdd _ _ => true
  | _ => false

/-- Whether an event is a user-visible toast notification. -/
def Event.isToast : Event → Bool
  | .toastMsg _ => true
  | _ => false

/-- The POS store's state slice (`POSState` in `store/index.ts`). -/
structure POSState where
  menuItems : List MenuItem
  orders : List Order
  isLoading : Bool
  error : Option Err
  isOffline : Bool
  offlinePayments : List OfflinePayment
  deriving Repr, DecidableEq

/-- Oracle fixing the responses of the backend facade (`queries.*`) and of
the local persistence facade (`storeOfflinePayment`) for one operation run;
a `.error` response models the awaited call throwing. -/
structure Backend where
  getMenuItems : Except Err (List MenuItem)
  getOrders : Except Err (List Order)
  getOfflinePayments : Except Err (List OfflinePayment)
  createMenuItem : MenuItemDraft → Except Err MenuItem
  updateMenuItem : String → Patch → Except Err MenuItem
  updateMenuItemStock : String → Int → String → Int → String →
      Option String → Option String → Except Err MenuItem
  createOrder : Patch → Except Err Unit
  updateOrderStatus : String → OrderStatus → Except Err Order
  createPayment : PaymentInput → Except Err Unit
  processOfflineQueue : Except Err Unit
  processOfflinePayments : Except Err Unit
  storeOfflinePayment : OfflinePayment → Except Err Unit

/-- Result of running one POS-store operation: final state, trace of
external interactions, and the error re-thrown to the caller, if any. -/
structure OpResult where
  state : POSState
  trace : List Event
  thrown : Option Err
  deriving Repr, DecidableEq

namespace POSStore

/-- The first step `set({ isLoading: true })` shared by `addOrder`,
`updateOrderStatus`, `processPayment`, `processSplitPayment`,
`syncOfflineData` and `syncOfflinePayments`: it does NOT touch `error`. -/
def posBegin (st : POSState) : POSState :=
  { st with isLoading := true }

/-- The first step `set({ isLoading: true, error: null })` shared by
`initialize`, `createMenuItem`, `updateMenuItem`, `deleteMenuItem`,
`restockMenuItem`, `adjustMenuItemStock` and `recordWaste`. -/
def posBeginClear (st : POSState) : POSState :=
  { st with isLoading := true, error := none }

/-- The catch branch common to the POS-store operations:
`set({ error, isLoading: false })`. -/
def posCatch (st : POSState) (e : Err) : POSState :=
  { st with error := some e, isLoading := false }

/-- `state.orders.map(order => order.id === orderId ? {...order,
status:'completed', paymentStatus:'paid', updatedAt: new Date()} : order)`. -/
def markOrderPaid (orderId : String) (now : Nat) (orders : List Order) : List Order :=
  orders.map fun o =>
    if o.id = orderId then
      { o with status := .completed, paymentStatus := .paid, updatedAt := now }
    else o

/-- The POS store's initialize operation (the Lean keyword forces the
name `initStore`): fetch menu items, orders and offline payments and
publish all three; the catch records the error without any toast and
without re-throwing. -/
def initStore (B : Backend) (st : POSState) : OpResult :=
  let st1 := posBeginClear st
  match B.getMenuItems with
  | .error e =>
      { state := posCatch st1 e, trace := [.getMenuItemsCall], thrown := none }
  | .ok menuItems =>
      match B.getOrders with
      | .error e =>
          { state := posCatch st1 e, trace := [.getMenuItemsCall, .getOrdersCall],
            thrown := none }
      | .ok orders =>
          match B.getOfflinePayments with
          | .error e =>
              { state := posCatch st1 e,
                trace := [.getMenuItemsCall, .getOrdersCall, .getOfflinePaymentsCall],
                thrown := none }
          | .ok offlinePayments =>
              { state := { st1 with
                    menuItems := menuItems
                    orders := orders
                    offlinePayments := offlinePayments
                    isLoading := false },
                trace := [.getMenuItemsCall, .getOrdersCall, .getOfflinePaymentsCall],
                thrown := none }

/-- `createMenuItem` of the POS store: create on the backend, append the
returned item locally; on failure set `error` and re-throw. No toast. -/
def createMenuItem (B : Backend) (st : POSState) (draft : MenuItemDraft) : OpResult :=
  let st1 := posBeginClear st
  match B.createMenuItem draft with
  | .error e =>
      { state := posCatch st1 e, trace := [.createMenuItemCall draft], thrown := some e }
  | .ok newItem =>
      { state := { st1 with menuItems := st1.menuItems ++ [newItem], isLoading := false },
        trace := [.createMenuItemCall draft], thrown := none }

/-- `updateMenuItem`: backend update, then replace-by-id in `menuItems`. -/
def updateMenuItem (B : Backend) (st : POSState) (menuItemId : String)
    (updates : Patch) : OpResult :=
  let st1 := posBeginClear st
  match B.updateMenuItem menuItemId updates with
  | .error e =>
      { state := posCatch st1 e, trace := [.updateMenuItemCall menuItemId updates],
        thrown := some e }
  | .ok updatedItem =>
      { state := { st1 with
            menuItems := st1.menuItems.map fun item =>
              if item.id = menuItemId then updatedItem else item,
            isLoading := false },
        trace := [.updateMenuItemCall menuItemId updates], thrown := none }

/-- `recordWaste`: look up the cached item, compute
`newStock = Math.max(0, currentStock - quantity)` (with
`currentStock = menuItem.currentStock || 0`), require an authenticated
user, then call `updateMenuItemStock(id, newStock, 'waste', -quantity,
userId, notes, reason)` and replace-by-id on success. -/
def recordWaste (B : Backend) (st : POSState) (authUserId : Option String)
    (menuItemId : String) (quantity : Int) (notes reason : Option String) : OpResult :=
  let st1 := posBeginClear st
  match st1.menuItems.find? (fun item => item.id == menuItemId) with
  | none =>
      { state := posCatch st1 "Menu item not found", trace := [],
        thrown := some "Menu item not found" }
  | some menuItem =>
      let currentStock := menuItem.currentStock.getD 0
      let newStock := max 0 (currentStock - quantity)
      match authUserId with
      | none =>
          { state := posCatch st1 "User not authenticated", trace := [],
            thrown := some "User not authenticated" }
      | some userId =>
          let callEv := Event.updateMenuItemStockCall menuItemId newStock "waste"
            (-quantity) userId notes reason
          match B.updateMenuItemStock menuItemId newStock "waste" (-quantity)
              userId notes reason with
          | .error e =>
              { state := posCatch st1 e, trace := [callEv], thrown := some e }
          | .ok updatedItem =>
              { state := { st1 with
                    menuItems := st1.menuItems.map fun item =>
                      if item.id = menuItemId then updatedItem else item,
                    isLoading := false },
                trace := [callEv], thrown := none }

/-- `addOrder`: create the order, then refresh orders and menu items from
the backend. First step sets only `isLoading` (error NOT cleared). -/
def addOrder (B : Backend) (st : POSState) (order : Patch) : OpResult :=
  let st1 := posBegin st
  match B.createOrder order with
  | .error e =>
      { state := posCatch st1 e, trace := [.createOrderCall order], thrown := some e }
  | .ok _ =>
      match B.getOrders with
      | .error e =>
          { state := posCatch st1 e, trace := [.createOrderCall order, .getOrdersCall],
            thrown := some e }
      | .ok orders =>
          match B.getMenuItems with
          | .error e =>
              { state := posCatch st1 e,
                trace := [.createOrderCall order, .getOrdersCall, .getMenuItemsCall],
                thrown := some e }
          | .ok menuItems =>
              { state := { st1 with
                    orders := orders
                    menuItems := menuItems
                    isLoading := false },
                trace := [.createOrderCall order, .getOrdersCall, .getMenuItemsCall],
                thrown := none }

/-- `updateOrderStatus`: backend status update, then replace-by-id in
`orders`. First step sets only `isLoading`. -/
def updateOrderStatus (B : Backend) (st : POSState) (orderId : String)
    (status : OrderStatus) : OpResult :=
  let st1 := posBegin st
  match B.updateOrderStatus orderId status with
  | .error e =>
      { state := posCatch st1 e, trace := [.updateOrderStatusCall orderId status],
        thrown := some e }
  | .ok updatedOrder =>
      { state := { st1 with
            orders := st1.orders.map fun o =>
              if o.id = orderId then updatedOrder else o,
            isLoading := false },
        trace := [.updateOrderStatusCall orderId status], thrown := none }

/-- The offline payment record built by `processPayment`'s offline branch;
`now` is `Date.now()`, `randSuffix` the `Math.random()`-derived suffix. -/
def mkOfflinePayment (orderId : String) (amount : Int) (paymentMethod : String)
    (details : PaymentDetails) (now : Nat) (randSuffix : String) : OfflinePayment :=
  { id := "offline_" ++ toString now ++ "_" ++ randSuffix
    orderId := orderId
    amount := amount
    paymentMethod := paymentMethod
    tipAmount := details.tipAmount.getD 0
    tipPercentage := details.tipPercentage
    taxAmount := details.taxAmount
    taxRate := details.taxRate
    createdAt := now }

/-- The queue payload enqueued by `processPayment`'s offline branch. -/
def queuePayloadOf (orderId : String) (amount : Int) (paymentMethod : String)
    (details : PaymentDetails) : QueuePayload :=
  { orderId := orderId, amount := amount, paymentMethod := paymentMethod
    tipAmount := details.tipAmount, tipPercentage := details.tipPercentage
    taxAmount := details.taxAmount, taxRate := details.taxRate }

/-- The `queries.createPayment` input built by `processPayment`'s online
branch (`status: 'completed'`). -/
def paymentInputOf (orderId : String) (amount : Int) (paymentMethod : String)
    (details : PaymentDetails) : PaymentInput :=
  { orderId := orderId, amount := amount, paymentMethod := paymentMethod
    status := "completed"
    tipAmount := details.tipAmount, tipPercentage := details.tipPercentage
    taxAmount := details.taxAmount, taxRate := details.taxRate }

/-- `processPayment`: branch on `isOffline`. Offline: store a locally
identified payment (IndexedDB), append it to `offlinePayments`,
optimistically mark the order completed/paid, enqueue a deferred
`'processPayment'` operation. Online: `createPayment`, then
`updateOrderStatus(orderId, 'completed')`, then `getOrders`. -/
def processPayment (B : Backend) (st : POSState) (orderId : String) (amount : Int)
    (paymentMethod : String) (details : PaymentDetails) (now : Nat)
    (randSuffix : String) : OpResult :=
  let st1 := posBegin st
  if st1.isOffline then
    let offlinePayment := mkOfflinePayment orderId amount paymentMethod details now randSuffix
    match B.storeOfflinePayment offlinePayment with
    | .error e =>
        { state := posCatch st1 e, trace := [.storeOfflinePaymentLocal offlinePayment],
          thrown := some e }
    | .ok _ =>
        { state := { st1 with
              offlinePayments := st1.offlinePayments ++ [offlinePayment],
              orders := markOrderPaid orderId now st1.orders,
              isLoading := false },
          trace := [.storeOfflinePaymentLocal offlinePayment,
            .queueAdd "processPayment" (queuePayloadOf orderId amount paymentMethod details)],
          thrown := none }
  else
    let input := paymentInputOf orderId amount paymentMethod details
    match B.createPayment input with
    | .error e =>
        { state := posCatch st1 e, trace := [.createPaymentCall input], thrown := some e }
    | .ok _ =>
        match B.updateOrderStatus orderId .completed with
        | .error e =>
            { state := posCatch st1 e,
              trace := [.createPaymentCall input, .updateOrderStatusCall orderId .completed],
              thrown := some e }
        | .ok _ =>
            match B.getOrders with
            | .error e =>
                { state := posCatch st1 e,
                  trace := [.createPaymentCall input,
                    .updateOrderStatusCall orderId .completed, .getOrdersCall],
                  thrown := some e }
            | .ok orders =>
                { state := { st1 with orders := orders, isLoading := false },
                  trace := [.createPaymentCall input,
                    .updateOrderStatusCall orderId .completed, .getOrdersCall],
                  thrown := none }

/-- The `queries.createPayment` input built per sub-payment by
`processSplitPayment`'s online loop (`tipAmount`/`taxAmount` default 0). -/
def splitPaymentInput (orderId : String) (p : SubPayment) : PaymentInput :=
  { orderId := orderId, amount := p.amount, paymentMethod := p.method
    status := "completed"
    tipAmount := some (p.tipAmount.getD 0), tipPercentage := none
    taxAmount := some (p.taxAmount.getD 0), taxRate := none }

/-- The offline payment record built per sub-payment by
`processSplitPayment`'s offline loop; `now`/`randSuffix` are the values of
`Date.now()`/`Math.random()` at that iteration. -/
def mkSplitOfflinePayment (orderId : String) (now : Nat) (randSuffix : String)
    (p : SubPayment) : OfflinePayment :=
  { id := "offline_" ++ toString now ++ "_" ++ randSuffix
    orderId := orderId, amount := p.amount, paymentMethod := p.method
    tipAmount := p.tipAmount.getD 0, tipPercentage := none
    taxAmount := some (p.taxAmount.getD 0), taxRate := none
    createdAt := now }

/-- The queue payload enqueued per sub-payment by the offline loop. -/
def splitQueuePayload (orderId : String) (p : SubPayment) : QueuePayload :=
  { orderId := orderId, amount := p.amount, paymentMethod := p.method
    tipAmount := p.tipAmount, tipPercentage := none
    taxAmount := p.taxAmount, taxRate := none }

/-- The online loop of `processSplitPayment`: `createPayment` per
sub-payment, sequentially, stopping at the first failure. Returns the
calls made and the failure, if any. -/
def splitCreateCalls (B : Backend) (orderId : String) :
    List SubPayment → List Event × Option Err
  | [] => ([], none)
  | p :: rest =>
    match B.createPayment (splitPaymentInput orderId p) with
    | .error e => ([.createPaymentCall (splitPaymentInput orderId p)], some e)
    | .ok _ =>
        let r := splitCreateCalls B orderId rest
        (.createPaymentCall (splitPaymentInput orderId p) :: r.1, r.2)

/-- The offline loop of `processSplitPayment`: per sub-payment, store an
offline record, append it to `offlinePayments`, enqueue a deferred
operation; `nowAt`/`randAt` give the timestamp and random suffix of each
iteration. Stops at the first local-storage failure. -/
def splitOffline (B : Backend) (orderId : String) (nowAt : Nat → Nat)
    (randAt : Nat → String) (idx : Nat) (st : POSState) :
    List SubPayment → POSState × List Event × Option Err
  | [] => (st, [], none)
  | p :: rest =>
    let op := mkSplitOfflinePayment orderId (nowAt idx) (randAt idx) p
    match B.storeOfflinePayment op with
    | .error e => (st, [.storeOfflinePaymentLocal op], some e)
    | .ok _ =>
        let st2 := { st with offlinePayments := st.offlinePayments ++ [op] }
        let r := splitOffline B orderId nowAt randAt (idx + 1) st2 rest
        (r.1, .storeOfflinePaymentLocal op ::
          .queueAdd "processPayment" (splitQueuePayload orderId p) :: r.2.1, r.2.2)

/-- `processSplitPayment`: offline, run the offline loop then mark the
order completed/paid locally and toast; online, run the sequential
`createPayment` loop, then `updateOrderStatus(orderId, 'completed')`, then
`getOrders`, then toast. First step sets only `isLoading`. -/
def processSplitPayment (B : Backend) (st : POSState) (orderId : String)
    (payments : List SubPayment) (nowAt : Nat → Nat) (randAt : Nat → String) : OpResult :=
  let st1 := posBegin st
  if st1.isOffline then
    let r := splitOffline B orderId nowAt randAt 0 st1 payments
    match r.2.2 with
    | some e => { state := posCatch r.1 e, trace := r.2.1, thrown := some e }
    | none =>
        { state := { r.1 with
              orders := markOrderPaid orderId (nowAt payments.length) r.1.orders,
              isLoading := false },
          trace := r.2.1 ++ [.toastMsg "Split payment processed (offline mode)"],
          thrown := none }
  else
    let r := splitCreateCalls B orderId payments
    match r.2 with
    | some e => { state := posCatch st1 e, trace := r.1, thrown := some e }
    | none =>
        match B.updateOrderStatus orderId .completed with
        | .error e =>
            { state := posCatch st1 e,
              trace := r.1 ++ [.updateOrderStatusCall orderId .completed],
              thrown := some e }
        | .ok _ =>
            match B.getOrders with
            | .error e =>
                { state := posCatch st1 e,
                  trace := r.1 ++ [.updateOrderStatusCall orderId .completed, .getOrdersCall],
                  thrown := some e }
            | .ok orders =>
                { state := { st1 with orders := orders, isLoading := false },
                  trace := r.1 ++ [.updateOrderStatusCall orderId .completed,
                    .getOrdersCall, .toastMsg "Split payment processed successfully"],
                  thrown := none }

/-- `syncOfflineData`: drain the offline queue, then refresh menu items
and orders. The catch returns `{success:false}` instead of re-throwing. -/
def syncOfflineData (B : Backend) (st : POSState) : OpResult :=
  let st1 := posBegin st
  match B.processOfflineQueue with
  | .error e =>
      { state := posCatch st1 e, trace := [.processOfflineQueueCall], thrown := none }
  | .ok _ =>
      match B.getMenuItems with
      | .error e =>
          { state := posCatch st1 e, trace := [.processOfflineQueueCall, .getMenuItemsCall],
            thrown := none }
      | .ok menuItems =>
          match B.getOrders with
          | .error e =>
              { state := posCatch st1 e,
                trace := [.processOfflineQueueCall, .getMenuItemsCall, .getOrdersCall],
                thrown := none }
          | .ok orders =>
              { state := { st1 with
                    menuItems := menuItems
                    orders := orders
                    isLoading := false },
                trace := [.processOfflineQueueCall, .getMenuItemsCall, .getOrdersCall],
                thrown := none }

/-- `syncOfflinePayments`: replay offline payments, then refresh orders
and the offline-payment list. The catch returns `{success:false}`. -/
def syncOfflinePayments (B : Backend) (st : POSState) : OpResult :=
  let st1 := posBegin st
  match B.processOfflinePayments with
  | .error e =>
      { state := posCatch st1 e, trace := [.processOfflinePaymentsCall], thrown := none }
  | .ok _ =>
      match B.getOrders with
      | .error e =>
          { state := posCatch st1 e, trace := [.processOfflinePaymentsCall, .getOrdersCall],
            thrown := none }
      | .ok orders =>
          match B.getOfflinePayments with
          | .error e =>
              { state := posCatch st1 e,
                trace := [.processOfflinePaymentsCall, .getOrdersCall,
                  .getOfflinePaymentsCall],
                thrown := none }
          | .ok offlinePayments =>
              { state := { st1 with
                    orders := orders
                    offlinePayments := offlinePayments
                    isLoading := false },
                trace := [.processOfflinePaymentsCall, .getOrdersCall,
                  .getOfflinePaymentsCall],
                thrown := none }

end POSStore

/-- The staff store's state slice (`StaffState` in `store/staff.ts`). -/
structure StaffState where
  staffMembers : List User
  isLoading : Bool
  error : Option Err
  deriving Repr, DecidableEq

/-- Oracle for the staff store's backend facade (`queries.*`). -/
structure StaffBackend where
  getStaffMembers : Except Err (List User)
  createStaffMember : String → String → Patch → Except Err User
  updateStaffMember : String → Patch → Except Err User
  deleteStaffMember : String → Except Err Unit

/-- Result of one staff-store operation: final state, toasts emitted in
order, and the error re-thrown to the caller, if any. -/
structure StaffOpResult where
  state : StaffState
  toasts : List String
  thrown : Option Err
  deriving Repr, DecidableEq

namespace StaffStore

/-- `fetchStaffMembers`: list from the backend; the catch notifies and
swallows the failure (no re-throw). -/
def fetchStaffMembers (B : StaffBackend) (st : StaffState) : StaffOpResult :=
  let st1 : StaffState := { st with isLoading := true, error := none }
  match B.getStaffMembers with
  | .error e =>
      { state := { st1 with error := some e, isLoading := false },
        toasts := ["Failed to fetch staff members"], thrown := none }
  | .ok staffMembers =>
      { state := { st1 with staffMembers := staffMembers, isLoading := false },
        toasts := [], thrown := none }

/-- `createStaffMember`: backend create, append locally, toast; the catch
sets `error` and toasts but does NOT re-throw. -/
def createStaffMember (B : StaffBackend) (st : StaffState) (email password : String)
    (profile : Patch) : StaffOpResult :=
  let st1 : StaffState := { st with isLoading := true, error := none }
  match B.createStaffMember email password profile with
  | .error e =>
      { state := { st1 with error := some e, isLoading := false },
        toasts := ["Failed to create staff member"], thrown := none }
  | .ok newStaffMember =>
      { state := { st1 with
            staffMembers := st1.staffMembers ++ [newStaffMember]
            isLoading := false },
        toasts := ["Staff member created successfully"], thrown := none }

/-- `updateStaffMember`: backend update, replace-by-id locally, toast; the
catch sets `error` and toasts but does NOT re-throw. -/
def updateStaffMember (B : StaffBackend) (st : StaffState) (userId : String)
    (updates : Patch) : StaffOpResult :=
  let st1 : StaffState := { st with isLoading := true, error := none }
  match B.updateStaffMember userId updates with
  | .error e =>
      { state := { st1 with error := some e, isLoading := false },
        toasts := ["Failed to update staff member"], thrown := none }
  | .ok updatedStaffMember =>
      { state := { st1 with
            staffMembers := st1.staffMembers.map fun member =>
              if member.id = userId then updatedStaffMember else member
            isLoading := false },
        toasts := ["Staff member updated successfully"], thrown := none }

/-- `deleteStaffMember`: backend delete, remove-by-id locally, toast; the
catch sets `error` and toasts but does NOT re-throw. -/
def deleteStaffMember (B : StaffBackend) (st : StaffState) (userId : String) :
    StaffOpResult :=
  let st1 : StaffState := { st with isLoading := true, error := none }
  match B.deleteStaffMember userId with
  | .error e =>
      { state := { st1 with error := some e, isLoading := false },
        toasts := ["Failed to delete staff member"], thrown := none }
  | .ok _ =>
      { state := { st1 with
            staffMembers := st1.staffMembers.filter fun member => member.id ≠ userId
            isLoading := false },
        toasts := ["Staff member deleted successfully"], thrown := none }

end StaffStore

/-- The auth store's state slice (`AuthState` in `store/auth.ts`). -/
structure AuthState where
  isAuthenticated : Bool
  user : Option User
  isLoading : Bool
  error : Option Err
  deriving Repr, DecidableEq

/-- The supabase auth user returned by `signInWithPassword` (email modelled
as present, matching the non-null assertion `authData.user.email!`). -/
structure AuthUserRec where
  id : String
  email : String
  deriving Repr, DecidableEq

/-- The `user_profiles` row fetched by `signIn` (wire fields). -/
structure ProfileRow where
  role : UserRole
  name : String
  restaurant_id : Option String
  default_location_id : Option String
  location_id : Option String
  parent_user_id : Option String
  managed_restaurant_ids : Option (List String)
  preferred_language : Option String
  created_at : Nat
  last_login_at : Option Nat
  deriving Repr, DecidableEq

/-- Backend responses consumed by one `signIn` run.  `auth` models
`signInWithPassword` (`.ok none` is a null `authData.user`); `profile`
models the `user_profiles` select.  `updateLastLogin` models the awaited
last-login update: per the supabase client contract this call resolves
with an error value instead of rejecting, and `signIn` never reads the
value, so its result cannot reach the catch block. -/
structure SignInResponses where
  auth : Except Err (Option AuthUserRec)
  profile : Except Err ProfileRow
  updateLastLogin : Option Err
  deriving Repr, DecidableEq

namespace AuthStore

/-- The `User` view model composed by `signIn` from the auth user and the
profile row (`preferred_language || 'en'`). -/
def mkUserFromProfile (au : AuthUserRec) (p : ProfileRow) : User :=
  { id := au.id
    email := au.email
    role := p.role
    name := p.name
    restaurantId := p.restaurant_id
    defaultLocationId := p.default_location_id
    locationId := p.location_id
    parentUserId := p.parent_user_id
    managedRestaurantIds := p.managed_restaurant_ids
    preferredLanguage := p.preferred_language.getD "en"
    createdAt := p.created_at
    lastLoginAt := p.last_login_at }

/-- The catch branch of `signIn`:
`set({ error, isLoading: false, isAuthenticated: false, user: null })`. -/
def signInCatch (st : AuthState) (e : Err) : AuthState :=
  { st with error := some e, isLoading := false, isAuthenticated := false, user := none }

/-- `signIn`: authenticate, fetch the profile, compose the user, publish
the signed-in state, then issue the last-login update whose result is
ignored.  The catch swallows the failure (no re-throw) after clearing the
signed-in state. -/
def signIn (resp : SignInResponses) (st : AuthState) : AuthState :=
  let st1 : AuthState := { st with isLoading := true, error := none }
  match resp.auth with
  | .error e => signInCatch st1 e
  | .ok none => signInCatch st1 "No user returned from authentication"
  | .ok (some au) =>
      match resp.profile with
      | .error e => signInCatch st1 e
      | .ok p =>
          let user := mkUserFromProfile au p
          { st1 with
              user := some user
              isAuthenticated := true
              isLoading := false
              error := none }

/-- Whether a `signIn` run fails (the backend rejects the credentials, no
auth user is returned, or the profile fetch fails). -/
def signInFails (resp : SignInResponses) : Bool :=
  match resp.auth with
  | .error _ => true
  | .ok none => true
  | .ok (some _) =>
      match resp.profile with
      | .error _ => true
      | .ok _ => false

end AuthStore

/-- The application-side `RestaurantLocation` record (wire column
`restaurant_id` is kept under the same name, as the source does; address
and contact fields are omitted — no modelled operation reads them). -/
structure RestaurantLocation where
  id : String
  name : String
  taxRate : Int
  isActive : Bool
  createdAt : Nat
  updatedAt : Nat
  restaurant_id : String
  deriving Repr, DecidableEq

/-- The location store's state slice (`LocationState`). -/
structure LocationState where
  selectedLocation : Option RestaurantLocation
  locations : List RestaurantLocation
  isLoading : Bool
  error : Option Err
  deriving Repr, DecidableEq

/-- Oracle for the location store's backend: the `restaurant_locations`
table contents (or a failure) served to `fetchLocations`, and the
row-update endpoint used by `updateLocation`. -/
structure LocationBackend where
  table : Except Err (List RestaurantLocation)
  updateLocation : String → Patch → Except Err RestaurantLocation

namespace LocationStore

/-- The server-side filter built by `fetchLocations`: all roles other than
`super-admin`/`sub-super-admin` get `.eq('restaurant_id', user.restaurantId)`;
a `sub-super-admin` with a managed-restaurant-ids array gets
`.in('restaurant_id', user.managedRestaurantIds)`; otherwise no filter. -/
def locationFilter (user : User) (loc : RestaurantLocation) : Bool :=
  if ¬ (user.role = UserRole.superAdmin) ∧ ¬ (user.role = UserRole.subSuperAdmin) then
    user.restaurantId = some loc.restaurant_id
  else if user.role = UserRole.subSuperAdmin ∧ user.managedRestaurantIds.isSome then
    (user.managedRestaurantIds.getD []).contains loc.restaurant_id
  else
    true

/-- Code-point-wise comparison of names (the server's ascending text
order on the `name` column). -/
def charLe : List Char → List Char → Bool
  | [], _ => true
  | _ :: _, [] => false
  | a :: as, b :: bs =>
    if a.val < b.val then true
    else if b.val < a.val then false
    else charLe as bs

/-- Name order on location rows. -/
def nameLe (a b : RestaurantLocation) : Bool :=
  charLe a.name.data b.name.data

/-- Insert a row into a name-sorted list of rows. -/
def insertSorted (x : RestaurantLocation) : List RestaurantLocation → List RestaurantLocation
  | [] => [x]
  | y :: ys => if nameLe x y then x :: y :: ys else y :: insertSorted x ys

/-- `.order('name')`: ascending sort of the result rows by name. -/
def sortByName : List RestaurantLocation → List RestaurantLocation
  | [] => []
  | x :: xs => insertSorted x (sortByName xs)

/-- The result set of the `restaurant_locations` query issued by
`fetchLocations` for a given caller against a given table. -/
def fetchLocationsQuery (user : User) (table : List RestaurantLocation) :
    List RestaurantLocation :=
  sortByName (table.filter (locationFilter user))

/-- The location `fetchLocations` selects after a successful fetch, if
any: the caller's default location when it occurs among the fetched rows;
else the first active fetched row; else the first fetched row; else none
(in which case `fetchLocations` leaves `selectedLocation` untouched). -/
def selectedAfterFetch (user : User) (locations : List RestaurantLocation) :
    Option RestaurantLocation :=
  match user.defaultLocationId with
  | some dId =>
      match locations.find? (fun loc => loc.id == dId) with
      | some defaultLocation => some defaultLocation
      | none =>
          match locations.find? (fun loc => loc.isActive) with
          | some activeLocation => some activeLocation
          | none => locations.head?
  | none =>
      match locations.find? (fun loc => loc.isActive) with
      | some activeLocation => some activeLocation
      | none => locations.head?

/-- `fetchLocations`: no authenticated user clears the list; otherwise run
the filtered, name-ordered query, publish the rows, then select a location
per `selectedAfterFetch` (no `set` when it yields none).  The catch
notifies and swallows the failure. -/
def fetchLocations (LB : LocationBackend) (user? : Option User) (st : LocationState) :
    LocationState :=
  let st1 : LocationState := { st with isLoading := true, error := none }
  match user? with
  | none => { st1 with locations := [], isLoading := false }
  | some user =>
      match LB.table with
      | .error e => { st1 with error := some e, isLoading := false }
      | .ok table =>
          let locations := fetchLocationsQuery user table
          let st2 : LocationState := { st1 with locations := locations, isLoading := false }
          match selectedAfterFetch user locations with
          | some loc => { st2 with selectedLocation := some loc }
          | none => st2

/-- Result of one location-store mutating operation. -/
structure LocationOpResult where
  state : LocationState
  toasts : List String
  thrown : Option Err
  deriving Repr, DecidableEq

/-- `updateLocation`: backend row update, replace-by-id in `locations`
(also refreshing `selectedLocation` when it is the target), toast; the
catch sets `error`, toasts, and re-throws. -/
def updateLocation (LB : LocationBackend) (st : LocationState) (id : String)
    (updates : Patch) : LocationOpResult :=
  let st1 : LocationState := { st with isLoading := true, error := none }
  match LB.updateLocation id updates with
  | .error e =>
      { state := { st1 with error := some e, isLoading := false },
        toasts := ["Failed to update location"], thrown := some e }
  | .ok updatedLocation =>
      { state := { st1 with
            locations := st1.locations.map fun location =>
              if location.id = id then updatedLocation else location
            selectedLocation :=
              if (st1.selectedLocation.map RestaurantLocation.id) = some id then
                some updatedLocation
              else st1.selectedLocation
            isLoading := false },
        toasts := ["Location updated successfully"], thrown := none }

end LocationStore

/-! Concrete fixtures used to instantiate the theorems below. -/

/-- A sample cached menu item with stock 5. -/
def sampleItem : MenuItem :=
  { id := "m1", name := "Burger", description := "beef", price := 9, category := "food"
    preparationTime := 10, isAvailable := true, currentStock := some 5, minStock := none }

/-- A sample pending order. -/
def sampleOrder : Order :=
  { id := "o1", customerId := "c1", total := 20, status := .pending
    paymentStatus := .pending, createdAt := 0, updatedAt := 0 }

/-- A sample cashier user of restaurant `r1`. -/
def sampleUser : User :=
  { id := "u1", email := "a@b.c", role := .cashier, name := "Al"
    restaurantId := some "r1", defaultLocationId := none, locationId := none
    parentUserId := none, managedRestaurantIds := none, preferredLanguage := "en"
    createdAt := 0, lastLoginAt := none }

/-- A backend oracle on which every call succeeds. -/
def okB : Backend :=
  { getMenuItems := .ok [sampleItem]
    getOrders := .ok [sampleOrder]
    getOfflinePayments := .ok []
    createMenuItem := fun _ => .ok sampleItem
    updateMenuItem := fun _ _ => .ok sampleItem
    updateMenuItemStock := fun _ _ _ _ _ _ _ => .ok sampleItem
    createOrder := fun _ => .ok ()
    updateOrderStatus := fun _ _ => .ok sampleOrder
    createPayment := fun _ => .ok ()
    processOfflineQueue := .ok ()
    processOfflinePayments := .ok ()
    storeOfflinePayment := fun _ => .ok () }

/-- A backend oracle on which every call fails with `"boom"`. -/
def failB : Backend :=
  { getMenuItems := .error "boom"
    getOrders := .error "boom"
    getOfflinePayments := .error "boom"
    createMenuItem := fun _ => .error "boom"
    updateMenuItem := fun _ _ => .error "boom"
    updateMenuItemStock := fun _ _ _ _ _ _ _ => .error "boom"
    createOrder := fun _ => .error "boom"
    updateOrderStatus := fun _ _ => .error "boom"
    createPayment := fun _ => .error "boom"
    processOfflineQueue := .error "boom"
    processOfflinePayments := .error "boom"
    storeOfflinePayment := fun _ => .error "boom" }

/-- A sample online POS state. -/
def posSt0 : POSState :=
  { menuItems := [sampleItem], orders := [sampleOrder], isLoading := false
    error := none, isOffline := false, offlinePayments := [] }

/-- The sample POS state with the offline flag set. -/
def posStOff : POSState := { posSt0 with isOffline := true }

/-- A sample staff-store state. -/
def staffSt0 : StaffState :=
  { staffMembers := [sampleUser], isLoading := false, error := none }

/-- A staff backend on which every call succeeds. -/
def okSB : StaffBackend :=
  { getStaffMembers := .ok [sampleUser]
    createStaffMember := fun _ _ _ => .ok sampleUser
    updateStaffMember := fun _ _ => .ok sampleUser
    deleteStaffMember := fun _ => .ok () }

/-- A staff backend on which every call fails with `"boom"`. -/
def failSB : StaffBackend :=
  { getStaffMembers := .error "boom"
    createStaffMember := fun _ _ _ => .error "boom"
    updateStaffMember := fun _ _ => .error "boom"
    deleteStaffMember := fun _ => .error "boom" }

/-- Sample locations of restaurants `r1` and `r2`. -/
def sampleLoc1 : RestaurantLocation :=
  { id := "L1", name := "Alpha", taxRate := 8, isActive := false
    createdAt := 0, updatedAt := 0, restaurant_id := "r1" }

/-- A second sample location (active, restaurant `r2`). -/
def sampleLoc2 : RestaurantLocation :=
  { id := "L2", name := "Beta", taxRate := 8, isActive := true
    createdAt := 0, updatedAt := 0, restaurant_id := "r2" }

/-- A third sample location (active, restaurant `r1`). -/
def sampleLoc3 : RestaurantLocation :=
  { id := "L3", name := "Gamma", taxRate := 8, isActive := true
    createdAt := 0, updatedAt := 0, restaurant_id := "r1" }

/-- A sample `restaurant_locations` table. -/
def sampleTable : List RestaurantLocation := [sampleLoc2, sampleLoc1, sampleLoc3]

/-- A location backend serving `sampleTable` and succeeding updates. -/
def okLB : LocationBackend :=
  { table := .ok sampleTable
    updateLocation := fun _ _ => .ok sampleLoc3 }

/-- A location backend on which every call fails with `"boom"`. -/
def failLB : LocationBackend :=
  { table := .error "boom"
    updateLocation := fun _ _ => .error "boom" }

/-- A sample location-store state. -/
def locSt0 : LocationState :=
  { selectedLocation := some sampleLoc1, locations := [sampleLoc1], isLoading := false
    error := none }

/-- A sample signed-in auth state (used as an arbitrary prior state). -/
def authStIn : AuthState :=
  { isAuthenticated := true, user := some sampleUser, isLoading := false, error := none }

/-- A sample auth user record. -/
def sampleAuthUser : AuthUserRec := { id := "u1", email := "a@b.c" }

/-- A sample profile row for `sampleAuthUser`. -/
def sampleProfile : ProfileRow :=
  { role := .cashier, name := "Al", restaurant_id := some "r1"
    default_location_id := none, location_id := none, parent_user_id := none
    managed_restaurant_ids := none, preferred_language := none
    created_at := 0, last_login_at := none }

/-! Claim theorems. -/

/-- C2: for every menu item present in the cached `menuItems` list and
every waste quantity, `recordWaste` passes the backend a new stock level
of `max 0 (currentStock - quantity)` — never below zero — together with a
`'waste'` transaction whose quantity change is exactly `-quantity`. -/
theorem C2_recordWaste_clamps_stock (B : Backend) (st : POSState)
    (userId menuItemId : String) (quantity : Int) (notes reason : Option String)
    (item : MenuItem)
    (hfind : st.menuItems.find? (fun it => it.id == menuItemId) = some item) :
    (POSStore.recordWaste B st (some userId) menuItemId quantity notes reason).trace =
      [Event.updateMenuItemStockCall menuItemId
        (max 0 (item.currentStock.getD 0 - quantity)) "waste" (-quantity)
        userId notes reason] ∧
    (0 : Int) ≤ max 0 (item.currentStock.getD 0 - quantity) := by
  refine ⟨?_, le_max_left 0 _⟩
  have hfind' : (POSStore.posBeginClear st).menuItems.find?
      (fun it => it.id == menuItemId) = some item := hfind
  unfold POSStore.recordWaste
  dsimp only
  rw [hfind']
  cases hB : B.updateMenuItemStock menuItemId
      (max 0 (item.currentStock.getD 0 - quantity)) "waste" (-quantity)
      userId notes reason with
  | error e => simp [hB]
  | ok u => simp [hB]

/-- Witness for C2 at the spec's own instance: cached stock 5, waste
quantity 8 gives a new stock level of 0 and a recorded change of -8. -/
theorem C2_witness :
    (POSStore.recordWaste okB posSt0 (some "u1") "m1" 8 none none).trace =
      [Event.updateMenuItemStockCall "m1" 0 "waste" (-8) "u1" none none] := by
  have h := (C2_recordWaste_clamps_stock okB posSt0 "u1" "m1" 8 none none
    sampleItem (by decide)).1
  exact h.trans (by decide)

/-- Every order the optimistic offline update leaves in the collection
that bears the paid order's id has status `completed` and payment status
`paid`. -/
theorem markOrderPaid_sets_status (orderId : String) (now : Nat) (orders : List Order) :
    ∀ o ∈ POSStore.markOrderPaid orderId now orders,
      o.id = orderId → o.status = .completed ∧ o.paymentStatus = .paid := by
  intro o ho hid
  rw [POSStore.markOrderPaid, List.mem_map] at ho
  obtain ⟨a, ha, hEq⟩ := ho
  by_cases h : a.id = orderId
  · rw [if_pos h] at hEq
    rw [← hEq]
    exact ⟨rfl, rfl⟩
  · rw [if_neg h] at hEq
    rw [← hEq] at hid
    exact absurd hid h

/-- C1: with `isOffline = true`, `processPayment` stores exactly one
payment record locally and mirrors it into `offlinePayments`, marks the
referenced order completed/paid, performs no backend call, enqueues
exactly one deferred `'processPayment'` operation, and throws nothing. -/
theorem C1_processPayment_offline (B : Backend) (st : POSState)
    (orderId : String) (amount : Int) (paymentMethod : String)
    (details : PaymentDetails) (now : Nat) (randSuffix : String)
    (hoff : st.isOffline = true)
    (hstore : B.storeOfflinePayment
      (POSStore.mkOfflinePayment orderId amount paymentMethod details now randSuffix) = .ok ()) :
    (POSStore.processPayment B st orderId amount paymentMethod details now randSuffix).trace =
      [Event.storeOfflinePaymentLocal
          (POSStore.mkOfflinePayment orderId amount paymentMethod details now randSuffix),
        Event.queueAdd "processPayment"
          (POSStore.queuePayloadOf orderId amount paymentMethod details)] ∧
    (POSStore.processPayment B st orderId amount paymentMethod details now
        randSuffix).state.offlinePayments =
      st.offlinePayments ++
        [POSStore.mkOfflinePayment orderId amount paymentMethod details now randSuffix] ∧
    (POSStore.processPayment B st orderId amount paymentMethod details now
        randSuffix).state.orders = POSStore.markOrderPaid orderId now st.orders ∧
    (∀ o ∈ (POSStore.processPayment B st orderId amount paymentMethod details now
        randSuffix).state.orders,
      o.id = orderId → o.status = .completed ∧ o.paymentStatus = .paid) ∧
    (∀ e ∈ (POSStore.processPayment B st orderId amount paymentMethod details now
        randSuffix).trace, e.isBackendCall = false) ∧
    (POSStore.processPayment B st orderId amount paymentMethod details now
        randSuffix).trace.countP Event.isLocalStore = 1 ∧
    (POSStore.processPayment B st orderId amount paymentMethod details now
        randSuffix).trace.countP Event.isQueueAdd = 1 ∧
    (POSStore.processPayment B st orderId amount paymentMethod details now
        randSuffix).thrown = none := by
  have hrun : POSStore.processPayment B st orderId amount paymentMethod details now
      randSuffix =
      { state := { POSStore.posBegin st with
            offlinePayments := st.offlinePayments ++
              [POSStore.mkOfflinePayment orderId amount paymentMethod details now randSuffix]
            orders := POSStore.markOrderPaid orderId now st.orders
            isLoading := false }
        trace := [Event.storeOfflinePaymentLocal
            (POSStore.mkOfflinePayment orderId amount paymentMethod details now randSuffix),
          Event.queueAdd "processPayment"
            (POSStore.queuePayloadOf orderId amount paymentMethod details)]
        thrown := none } := by
    unfold POSStore.processPayment
    dsimp only
    have hoff1 : (POSStore.posBegin st).isOffline = true := hoff
    rw [if_pos hoff1, hstore]
    rfl
  rw [hrun]
  refine ⟨rfl, rfl, rfl, markOrderPaid_sets_status orderId now st.orders, ?_, rfl, rfl, rfl⟩
  intro e he
  rcases List.mem_cons.mp he with h1 | h2
  · rw [h1]; rfl
  · rcases List.mem_cons.mp h2 with h3 | h4
    · rw [h3]; rfl
    · exact absurd h4 (List.not_mem_nil e)

/-- Witness for C1 at a concrete offline state and payment. -/
theorem C1_witness :
    (POSStore.processPayment okB posStOff "o1" 20 "cash" {} 7 "ab12").trace =
      [Event.storeOfflinePaymentLocal (POSStore.mkOfflinePayment "o1" 20 "cash" {} 7 "ab12"),
        Event.queueAdd "processPayment" (POSStore.queuePayloadOf "o1" 20 "cash" {})] ∧
    (POSStore.processPayment okB posStOff "o1" 20 "cash" {} 7 "ab12").state.offlinePayments =
      posStOff.offlinePayments ++ [POSStore.mkOfflinePayment "o1" 20 "cash" {} 7 "ab12"] ∧
    (POSStore.processPayment okB posStOff "o1" 20 "cash" {} 7 "ab12").trace.countP
      Event.isLocalStore = 1 ∧
    (POSStore.processPayment okB posStOff "o1" 20 "cash" {} 7 "ab12").trace.countP
      Event.isQueueAdd = 1 ∧
    (POSStore.processPayment okB posStOff "o1" 20 "cash" {} 7 "ab12").thrown = none := by
  have h := C1_processPayment_offline okB posStOff "o1" 20 "cash" {} 7 "ab12" rfl rfl
  exact ⟨h.1, h.2.1, h.2.2.2.2.2.1, h.2.2.2.2.2.2.1, h.2.2.2.2.2.2.2⟩

/-- When every `createPayment` call succeeds, the online split-payment
loop issues exactly one payment-creation call per sub-payment, in list
order, and fails nowhere. -/
theorem splitCreateCalls_all_ok (B : Backend) (orderId : String)
    (payments : List SubPayment)
    (h : ∀ p ∈ payments, B.createPayment (POSStore.splitPaymentInput orderId p) = .ok ()) :
    POSStore.splitCreateCalls B orderId payments =
      (payments.map fun p => Event.createPaymentCall (POSStore.splitPaymentInput orderId p),
        none) := by
  induction payments with
  | nil => rfl
  | cons p rest ih =>
    have hp := h p (List.mem_cons_self p rest)
    have hrest := ih fun q hq => h q (List.mem_cons_of_mem p hq)
    rw [POSStore.splitCreateCalls, hp]
    dsimp only
    rw [hrest]
    rfl

/-- Whether an event is a backend payment-creation call. -/
def Event.isCreatePayment : Event → Bool
  | .createPaymentCall _ => true
  | _ => false

/-- Whether an event is a backend order-status update call. -/
def Event.isUpdateOrderStatus : Event → Bool
  | .updateOrderStatusCall _ _ => true
  | _ => false

/-- Whether an event is a backend order-list refresh call. -/
def Event.isGetOrders : Event → Bool
  | .getOrdersCall => true
  | _ => false

/-- C3: with `isOffline = false` and N sub-payments, `processSplitPayment`
performs exactly N backend payment-creation calls, one per sub-payment
sequentially in list order, followed by exactly one backend order-status
update to `completed`, followed by exactly one backend order-list refresh. -/
theorem C3_processSplitPayment_online (B : Backend) (st : POSState)
    (orderId : String) (payments : List SubPayment) (nowAt : Nat → Nat)
    (randAt : Nat → String) (u : Order) (os : List Order)
    (hon : st.isOffline = false)
    (hpay : ∀ p ∈ payments,
      B.createPayment (POSStore.splitPaymentInput orderId p) = .ok ())
    (hupd : B.updateOrderStatus orderId .completed = .ok u)
    (hget : B.getOrders = .ok os) :
    (POSStore.processSplitPayment B st orderId payments nowAt randAt).trace =
      (payments.map fun p => Event.createPaymentCall (POSStore.splitPaymentInput orderId p)) ++
        [Event.updateOrderStatusCall orderId .completed, Event.getOrdersCall,
          Event.toastMsg "Split payment processed successfully"] ∧
    (POSStore.processSplitPayment B st orderId payments nowAt randAt).trace.countP
      Event.isCreatePayment = payments.length ∧
    (POSStore.processSplitPayment B st orderId payments nowAt randAt).trace.countP
      Event.isUpdateOrderStatus = 1 ∧
    (POSStore.processSplitPayment B st orderId payments nowAt randAt).trace.countP
      Event.isGetOrders = 1 ∧
    (POSStore.processSplitPayment B st orderId payments nowAt randAt).thrown = none := by
  have hrun : POSStore.processSplitPayment B st orderId payments nowAt randAt =
      { state := { POSStore.posBegin st with orders := os, isLoading := false }
        trace := (payments.map fun p =>
            Event.createPaymentCall (POSStore.splitPaymentInput orderId p)) ++
          [Event.updateOrderStatusCall orderId .completed, Event.getOrdersCall,
            Event.toastMsg "Split payment processed successfully"]
        thrown := none } := by
    unfold POSStore.processSplitPayment
    dsimp only
    have hoff1 : (POSStore.posBegin st).isOffline = false := hon
    rw [if_neg (by rw [hoff1]; exact Bool.false_ne_true),
      splitCreateCalls_all_ok B orderId payments hpay]
    dsimp only
    rw [hupd, hget]
  rw [hrun]
  refine ⟨rfl, ?_, ?_, ?_, rfl⟩
  · dsimp only
    rw [List.countP_append, List.countP_map]
    have h1 : List.countP (Event.isCreatePayment ∘ fun p =>
        Event.createPaymentCall (POSStore.splitPaymentInput orderId p)) payments =
        payments.length := by
      rw [List.countP_eq_length]
      intro p _
      rfl
    rw [h1]
    rfl
  · dsimp only
    rw [List.countP_append, List.countP_map]
    have h1 : List.countP (Event.isUpdateOrderStatus ∘ fun p =>
        Event.createPaymentCall (POSStore.splitPaymentInput orderId p)) payments = 0 := by
      rw [List.countP_eq_zero]
      intro p _
      exact Bool.false_ne_true
    rw [h1]
    rfl
  · dsimp only
    rw [List.countP_append, List.countP_map]
    have h1 : List.countP (Event.isGetOrders ∘ fun p =>
        Event.createPaymentCall (POSStore.splitPaymentInput orderId p)) payments = 0 := by
      rw [List.countP_eq_zero]
      intro p _
      exact Bool.false_ne_true
    rw [h1]
    rfl

/-- Witness for C3 with two concrete sub-payments. -/
theorem C3_witness :
    (POSStore.processSplitPayment okB posSt0 "o1"
        [{ amount := 12, method := "cash", tipAmount := some 2, taxAmount := none },
          { amount := 8, method := "card", tipAmount := none, taxAmount := some 1 }]
        (fun _ => 7) (fun _ => "ab12")).trace.countP Event.isCreatePayment = 2 ∧
    (POSStore.processSplitPayment okB posSt0 "o1"
        [{ amount := 12, method := "cash", tipAmount := some 2, taxAmount := none },
          { amount := 8, method := "card", tipAmount := none, taxAmount := some 1 }]
        (fun _ => 7) (fun _ => "ab12")).trace.countP Event.isUpdateOrderStatus = 1 ∧
    (POSStore.processSplitPayment okB posSt0 "o1"
        [{ amount := 12, method := "cash", tipAmount := some 2, taxAmount := none },
          { amount := 8, method := "card", tipAmount := none, taxAmount := some 1 }]
        (fun _ => 7) (fun _ => "ab12")).trace.countP Event.isGetOrders = 1 := by
  have h := C3_processSplitPayment_online okB posSt0 "o1"
    [{ amount := 12, method := "cash", tipAmount := some 2, taxAmount := none },
      { amount := 8, method := "card", tipAmount := none, taxAmount := some 1 }]
    (fun _ => 7) (fun _ => "ab12") sampleOrder [sampleOrder] rfl
    (by intro p _; rfl) rfl rfl
  exact ⟨h.2.1, h.2.2.1, h.2.2.2.1⟩

/-- Inserting into a name-sorted list permutes consing. -/
theorem insertSorted_perm (x : RestaurantLocation) (ys : List RestaurantLocation) :
    List.Perm (LocationStore.insertSorted x ys) (x :: ys) := by
  induction ys with
  | nil => exact List.Perm.refl _
  | cons y ys ih =>
    rw [LocationStore.insertSorted]
    by_cases h : LocationStore.nameLe x y = true
    · rw [if_pos h]
    · rw [if_neg h]
      exact (ih.cons y).trans (List.Perm.swap x y ys)

/-- The name sort permutes its input. -/
theorem sortByName_perm (ls : List RestaurantLocation) :
    List.Perm (LocationStore.sortByName ls) ls := by
  induction ls with
  | nil => exact List.Perm.refl _
  | cons x xs ih =>
    rw [LocationStore.sortByName]
    exact (insertSorted_perm x (LocationStore.sortByName xs)).trans (ih.cons x)

/-- Membership in the location-fetch result set is membership in the
table filtered by the role-based filter (sorting permutes only). -/
theorem mem_fetchLocationsQuery (user : User) (table : List RestaurantLocation)
    (loc : RestaurantLocation) :
    loc ∈ LocationStore.fetchLocationsQuery user table ↔
      loc ∈ table ∧ LocationStore.locationFilter user loc = true := by
  unfold LocationStore.fetchLocationsQuery
  rw [(sortByName_perm _).mem_iff, List.mem_filter]

/-- C4: a caller whose role is neither `super-admin` nor `sub-super-admin`
fetches only locations of their own restaurant; a `sub-super-admin` with a
non-empty managed-restaurant-id set fetches exactly the locations whose
restaurant id lies in that set. -/
theorem C4_fetchLocations_role_filter (user : User) (table : List RestaurantLocation) :
    ((¬ user.role = UserRole.superAdmin ∧ ¬ user.role = UserRole.subSuperAdmin) →
      ∀ loc ∈ LocationStore.fetchLocationsQuery user table,
        user.restaurantId = some loc.restaurant_id) ∧
    (∀ ids : List String, user.role = UserRole.subSuperAdmin →
      user.managedRestaurantIds = some ids → ids ≠ [] →
      ∀ loc, loc ∈ LocationStore.fetchLocationsQuery user table ↔
        (loc ∈ table ∧ loc.restaurant_id ∈ ids)) := by
  constructor
  · intro h loc hloc
    have hm := (mem_fetchLocationsQuery user table loc).mp hloc
    have hfilter := hm.2
    rw [LocationStore.locationFilter, if_pos h] at hfilter
    exact of_decide_eq_true hfilter
  · intro ids hrole hman _ loc
    have hf : LocationStore.locationFilter user loc = ids.contains loc.restaurant_id := by
      simp [LocationStore.locationFilter, hrole, hman]
    refine (mem_fetchLocationsQuery user table loc).trans ?_
    rw [hf]
    exact and_congr_right fun _ => List.elem_iff

/-- Witness for C4: a cashier of restaurant `r1` fetches only `r1`
locations, and a sub-super-admin managing `r2` fetches exactly the `r2`
location. -/
theorem C4_witness :
    sampleUser.restaurantId = some sampleLoc3.restaurant_id ∧
    sampleLoc2 ∈ LocationStore.fetchLocationsQuery
      { sampleUser with role := .subSuperAdmin, managedRestaurantIds := some ["r2"] }
      sampleTable := by
  constructor
  · exact (C4_fetchLocations_role_filter sampleUser sampleTable).1
      (by decide) sampleLoc3 (by decide)
  · exact ((C4_fetchLocations_role_filter
      { sampleUser with role := .subSuperAdmin, managedRestaurantIds := some ["r2"] }
      sampleTable).2 ["r2"] rfl rfl (by decide) sampleLoc2).mpr (by decide)

/-- The post-fetch default-selection premise "no stored default location,
or the stored default does not occur among the fetched rows". -/
def noDefaultMatch (user : User) (L : List RestaurantLocation) : Prop :=
  user.defaultLocationId = none ∨
    ∃ d, user.defaultLocationId = some d ∧ L.find? (fun l => l.id == d) = none

/-- Under `noDefaultMatch`, the post-fetch selection is decided by the
active-location fallback chain. -/
theorem selectedAfterFetch_fallback (user : User) (L : List RestaurantLocation)
    (h : noDefaultMatch user L) :
    LocationStore.selectedAfterFetch user L =
      (match L.find? (fun l => l.isActive) with
        | some activeLocation => some activeLocation
        | none => L.head?) := by
  rcases h with h | ⟨d, hd, hfind⟩
  · rw [LocationStore.selectedAfterFetch, h]
  · rw [LocationStore.selectedAfterFetch, hd]
    dsimp only
    rw [hfind]

/-- A successful fetch publishes the query rows and applies the computed
selection, leaving the prior selection in place when it is `none`. -/
theorem fetchLocations_selection (LB : LocationBackend) (user : User)
    (st : LocationState) (table : List RestaurantLocation)
    (ht : LB.table = .ok table) :
    (LocationStore.fetchLocations LB (some user) st).selectedLocation =
      (match LocationStore.selectedAfterFetch user
          (LocationStore.fetchLocationsQuery user table) with
        | some loc => some loc
        | none => st.selectedLocation) := by
  rw [LocationStore.fetchLocations]
  dsimp only
  rw [ht]
  dsimp only
  cases hsel : LocationStore.selectedAfterFetch user
      (LocationStore.fetchLocationsQuery user table) with
  | some loc => rfl
  | none => rfl

/-- C5: after a successful fetch the selected location follows the
priority order: the caller's stored default if it occurs among the
fetched rows; else the first active fetched row; else the first fetched
row; else no selection is made (the prior selection stays). -/
theorem C5_default_location_selection (LB : LocationBackend) (user : User)
    (st : LocationState) (table : List RestaurantLocation)
    (ht : LB.table = .ok table) :
    (∀ d loc, user.defaultLocationId = some d →
      (LocationStore.fetchLocationsQuery user table).find? (fun l => l.id == d) = some loc →
      (LocationStore.fetchLocations LB (some user) st).selectedLocation = some loc) ∧
    (∀ loc, noDefaultMatch user (LocationStore.fetchLocationsQuery user table) →
      (LocationStore.fetchLocationsQuery user table).find? (fun l => l.isActive) = some loc →
      (LocationStore.fetchLocations LB (some user) st).selectedLocation = some loc) ∧
    (noDefaultMatch user (LocationStore.fetchLocationsQuery user table) →
      (LocationStore.fetchLocationsQuery user table).find? (fun l => l.isActive) = none →
      LocationStore.fetchLocationsQuery user table ≠ [] →
      (LocationStore.fetchLocations LB (some user) st).selectedLocation =
        (LocationStore.fetchLocationsQuery user table).head?) ∧
    (LocationStore.fetchLocationsQuery user table = [] →
      LocationStore.selectedAfterFetch user
        (LocationStore.fetchLocationsQuery user table) = none ∧
      (LocationStore.fetchLocations LB (some user) st).selectedLocation =
        st.selectedLocation) := by
  refine ⟨?_, ?_, ?_, ?_⟩
  · intro d loc hd hfind
    rw [fetchLocations_selection LB user st table ht,
      LocationStore.selectedAfterFetch, hd]
    dsimp only
    rw [hfind]
  · intro loc hnd hfind
    rw [fetchLocations_selection LB user st table ht,
      selectedAfterFetch_fallback user _ hnd, hfind]
  · intro hnd hfind hne
    rw [fetchLocations_selection LB user st table ht,
      selectedAfterFetch_fallback user _ hnd, hfind]
    cases hL : LocationStore.fetchLocationsQuery user table with
    | nil => exact absurd hL hne
    | cons a as => rfl
  · intro hL
    have hsel : LocationStore.selectedAfterFetch user
        (LocationStore.fetchLocationsQuery user table) = none := by
      rw [hL]
      cases hd : user.defaultLocationId with
      | none => rw [LocationStore.selectedAfterFetch, hd]; rfl
      | some d => rw [LocationStore.selectedAfterFetch, hd]; rfl
    refine ⟨hsel, ?_⟩
    rw [fetchLocations_selection LB user st table ht, hsel]

/-- Witness for C5: with a stored default matching fetched row `L3`, the
default is selected; without a default, the first active fetched row is
selected. -/
theorem C5_witness :
    (LocationStore.fetchLocations okLB
      (some { sampleUser with defaultLocationId := some "L3" })
      locSt0).selectedLocation = some sampleLoc3 ∧
    (LocationStore.fetchLocations okLB (some sampleUser)
      locSt0).selectedLocation = some sampleLoc3 := by
  constructor
  · exact (C5_default_location_selection okLB
      { sampleUser with defaultLocationId := some "L3" } locSt0 sampleTable rfl).1
      "L3" sampleLoc3 rfl (by decide)
  · exact (C5_default_location_selection okLB sampleUser locSt0 sampleTable rfl).2.1
      sampleLoc3 (Or.inl rfl) (by decide)

/-- C6: whenever the sign-in sequence fails (the backend rejects the
credentials, no auth user is returned, or the profile fetch fails), the
auth store ends with `isAuthenticated = false` and `user = null`,
regardless of the prior state. -/
theorem C6_signIn_failure_clears_auth (resp : SignInResponses) (st : AuthState)
    (h : AuthStore.signInFails resp = true) :
    (AuthStore.signIn resp st).isAuthenticated = false ∧
    (AuthStore.signIn resp st).user = none := by
  cases ha : resp.auth with
  | error e => simp [AuthStore.signIn, ha, AuthStore.signInCatch]
  | ok o =>
    cases o with
    | none => simp [AuthStore.signIn, ha, AuthStore.signInCatch]
    | some au =>
      cases hp : resp.profile with
      | error e => simp [AuthStore.signIn, ha, hp, AuthStore.signInCatch]
      | ok p =>
        exfalso
        rw [AuthStore.signInFails, ha, hp] at h
        exact Bool.false_ne_true h

/-- Witness for C6: invalid credentials reset a previously signed-in state. -/
theorem C6_witness :
    (AuthStore.signIn
      { auth := .error "Invalid login credentials", profile := .ok sampleProfile
        updateLastLogin := none } authStIn).isAuthenticated = false ∧
    (AuthStore.signIn
      { auth := .error "Invalid login credentials", profile := .ok sampleProfile
        updateLastLogin := none } authStIn).user = none :=
  C6_signIn_failure_clears_auth
    { auth := .error "Invalid login credentials", profile := .ok sampleProfile
      updateLastLogin := none } authStIn (by decide)

/-- C8: the last-login update is fire-and-forget — on a successful
authentication and profile fetch, the signed-in state (`user` set,
`isAuthenticated = true`) is established independently of the last-login
update's result, and changing that result changes nothing about the run. -/
theorem C8_lastLogin_fire_and_forget (resp : SignInResponses) (st : AuthState)
    (au : AuthUserRec) (p : ProfileRow)
    (ha : resp.auth = .ok (some au)) (hp : resp.profile = .ok p) :
    (AuthStore.signIn resp st).user = some (AuthStore.mkUserFromProfile au p) ∧
    (AuthStore.signIn resp st).isAuthenticated = true ∧
    (∀ r : Option Err,
      AuthStore.signIn { resp with updateLastLogin := r } st = AuthStore.signIn resp st) := by
  refine ⟨?_, ?_, ?_⟩
  · simp [AuthStore.signIn, ha, hp]
  · simp [AuthStore.signIn, ha, hp]
  · intro r
    simp [AuthStore.signIn]

/-- Witness for C8: a failing last-login update leaves the signed-in
state established. -/
theorem C8_witness :
    (AuthStore.signIn
      { auth := .ok (some sampleAuthUser), profile := .ok sampleProfile
        updateLastLogin := some "db down" } authStIn).isAuthenticated = true :=
  (C8_lastLogin_fire_and_forget
    { auth := .ok (some sampleAuthUser), profile := .ok sampleProfile
      updateLastLogin := some "db down" } authStIn sampleAuthUser sampleProfile
    rfl rfl).2.1

/-- A sample menu-item draft. -/
def sampleDraft : MenuItemDraft :=
  { name := "Salad", description := "green", price := 6, category := "food"
    preparationTime := 5, isAvailable := true, currentStock := some 3, minStock := none }

/-- C7 counterexample: the staff store's `createStaffMember` swallows a
backend failure instead of re-throwing it (`thrown = none` although the
error was recorded), and the POS store's `createMenuItem` re-throws a
failure without emitting any notification — both contradict the claimed
uniform record-notify-rethrow policy for mutating operations. -/
theorem C7_counterexample :
    (StaffStore.createStaffMember failSB staffSt0 "new@x.y" "pw" []).thrown = none ∧
    (StaffStore.createStaffMember failSB staffSt0 "new@x.y" "pw" []).state.error =
      some "boom" ∧
    (POSStore.createMenuItem failB posSt0 sampleDraft).thrown = some "boom" ∧
    (POSStore.createMenuItem failB posSt0 sampleDraft).trace.countP Event.isToast = 0 :=
  ⟨rfl, rfl, rfl, rfl⟩

/-- C7 (amended): on a failing backend call, every modelled operation
records the error in store state, but the propagation policy is
per-store: the POS store's mutating operations re-throw without
notifying; the location store's mutating operations notify and re-throw;
the staff store's create/update/delete notify but do NOT re-throw; and
read/list operations never re-throw — notification there is also
per-store (`fetchStaffMembers` toasts, while the POS store's initialize
operation records the error silently). -/
theorem C7_amended_error_propagation (B : Backend) (SB : StaffBackend)
    (LB : LocationBackend) (stP : POSState) (stS : StaffState) (stL : LocationState)
    (email password userId menuItemId locId : String) (profile updates : Patch)
    (draft : MenuItemDraft) (e1 e2 e3 e4 e5 e6 e7 e8 : Err)
    (h1 : SB.createStaffMember email password profile = .error e1)
    (h2 : SB.updateStaffMember userId updates = .error e2)
    (h3 : SB.deleteStaffMember userId = .error e3)
    (h4 : SB.getStaffMembers = .error e4)
    (h5 : B.createMenuItem draft = .error e5)
    (h6 : B.updateMenuItem menuItemId updates = .error e6)
    (h7 : LB.updateLocation locId updates = .error e7)
    (h8 : B.getMenuItems = .error e8) :
    (StaffStore.createStaffMember SB stS email password profile).thrown = none ∧
    (StaffStore.createStaffMember SB stS email password profile).state.error = some e1 ∧
    (StaffStore.createStaffMember SB stS email password profile).toasts =
      ["Failed to create staff member"] ∧
    (StaffStore.updateStaffMember SB stS userId updates).thrown = none ∧
    (StaffStore.updateStaffMember SB stS userId updates).state.error = some e2 ∧
    (StaffStore.deleteStaffMember SB stS userId).thrown = none ∧
    (StaffStore.deleteStaffMember SB stS userId).state.error = some e3 ∧
    (StaffStore.fetchStaffMembers SB stS).thrown = none ∧
    (StaffStore.fetchStaffMembers SB stS).state.error = some e4 ∧
    (POSStore.createMenuItem B stP draft).thrown = some e5 ∧
    (POSStore.createMenuItem B stP draft).state.error = some e5 ∧
    (POSStore.createMenuItem B stP draft).trace.countP Event.isToast = 0 ∧
    (POSStore.updateMenuItem B stP menuItemId updates).thrown = some e6 ∧
    (LocationStore.updateLocation LB stL locId updates).thrown = some e7 ∧
    (LocationStore.updateLocation LB stL locId updates).state.error = some e7 ∧
    (LocationStore.updateLocation LB stL locId updates).toasts =
      ["Failed to update location"] ∧
    (StaffStore.fetchStaffMembers SB stS).toasts = ["Failed to fetch staff members"] ∧
    (POSStore.initStore B stP).thrown = none ∧
    (POSStore.initStore B stP).state.error = some e8 ∧
    (POSStore.initStore B stP).trace.countP Event.isToast = 0 := by
  refine ⟨?_, ?_, ?_, ?_, ?_, ?_, ?_, ?_, ?_, ?_, ?_, ?_, ?_, ?_, ?_, ?_, ?_, ?_, ?_, ?_⟩
  · simp [StaffStore.createStaffMember, h1]
  · simp [StaffStore.createStaffMember, h1]
  · simp [StaffStore.createStaffMember, h1]
  · simp [StaffStore.updateStaffMember, h2]
  · simp [StaffStore.updateStaffMember, h2]
  · simp [StaffStore.deleteStaffMember, h3]
  · simp [StaffStore.deleteStaffMember, h3]
  · simp [StaffStore.fetchStaffMembers, h4]
  · simp [StaffStore.fetchStaffMembers, h4]
  · simp [POSStore.createMenuItem, h5]
  · simp [POSStore.createMenuItem, h5, POSStore.posCatch]
  · simp [POSStore.createMenuItem, h5, List.countP_cons, Event.isToast]
  · simp [POSStore.updateMenuItem, h6]
  · simp [LocationStore.updateLocation, h7]
  · simp [LocationStore.updateLocation, h7]
  · simp [LocationStore.updateLocation, h7]
  · simp [StaffStore.fetchStaffMembers, h4]
  · simp [POSStore.initStore, h8]
  · simp [POSStore.initStore, h8, POSStore.posCatch]
  · simp [POSStore.initStore, h8, List.countP_cons, Event.isToast]

/-- Witness for the amended C7 on concrete failing backends: the staff
mutating operations swallow, the POS update re-throws, the location
update notifies, the staff read notifies without re-throwing, and the
POS initialize operation records the failure silently. -/
theorem C7_witness :
    (StaffStore.updateStaffMember failSB staffSt0 "u1" []).thrown = none ∧
    (StaffStore.deleteStaffMember failSB staffSt0 "u1").thrown = none ∧
    (POSStore.updateMenuItem failB posSt0 "m1" []).thrown = some "boom" ∧
    (LocationStore.updateLocation failLB locSt0 "L1" []).toasts =
      ["Failed to update location"] ∧
    (StaffStore.fetchStaffMembers failSB staffSt0).toasts =
      ["Failed to fetch staff members"] ∧
    (POSStore.initStore failB posSt0).thrown = none ∧
    (POSStore.initStore failB posSt0).trace.countP Event.isToast = 0 := by
  have h := C7_amended_error_propagation failB failSB failLB posSt0 staffSt0 locSt0
    "new@x.y" "pw" "u1" "m1" "L1" [] [] sampleDraft
    "boom" "boom" "boom" "boom" "boom" "boom" "boom" "boom"
    rfl rfl rfl rfl rfl rfl rfl rfl
  refine ⟨h.2.2.2.1, h.2.2.2.2.2.1, h.2.2.2.2.2.2.2.2.2.2.2.2.1, ?_, ?_, ?_, ?_⟩
  · exact h.2.2.2.2.2.2.2.2.2.2.2.2.2.2.2.1
  · exact h.2.2.2.2.2.2.2.2.2.2.2.2.2.2.2.2.1
  · exact h.2.2.2.2.2.2.2.2.2.2.2.2.2.2.2.2.2.1
  · exact h.2.2.2.2.2.2.2.2.2.2.2.2.2.2.2.2.2.2.2

/-- C9 counterexample: the first step of `addOrder` is
`set({ isLoading: true })`, which does not clear `error` — starting from a
state with `error = "boom"`, the error survives the first step (and even a
fully successful run), contradicting the claim that every operation
begins by clearing `error` to null. -/
theorem C9_counterexample :
    (POSStore.posBegin { posSt0 with error := some "boom" }).error = some "boom" ∧
    (POSStore.addOrder okB { posSt0 with error := some "boom" } []).state.error =
      some "boom" :=
  ⟨rfl, rfl⟩

/-- C9 (amended): `addOrder`, `updateOrderStatus`, `processPayment`,
`processSplitPayment`, `syncOfflineData` and `syncOfflinePayments` begin
with `set({ isLoading: true })` only, leaving `error` unchanged (so a
successful run preserves any prior error), whereas the remaining POS
operations (such as `createMenuItem`) begin by also clearing `error`. -/
theorem C9_amended_first_step (B : Backend) (st : POSState) (ord : Patch)
    (orderId : String) (amount : Int) (method : String) (details : PaymentDetails)
    (now : Nat) (randSuffix : String) (payments : List SubPayment)
    (nowAt : Nat → Nat) (randAt : Nat → String) (draft : MenuItemDraft)
    (u : Order) (os : List Order) (ms : List MenuItem) (ops2 : List OfflinePayment)
    (it : MenuItem)
    (hon : st.isOffline = false)
    (hco : B.createOrder ord = .ok ())
    (hgo : B.getOrders = .ok os)
    (hgm : B.getMenuItems = .ok ms)
    (hgop : B.getOfflinePayments = .ok ops2)
    (hupd : B.updateOrderStatus orderId .completed = .ok u)
    (hcp : B.createPayment (POSStore.paymentInputOf orderId amount method details) = .ok ())
    (hpay : ∀ p ∈ payments,
      B.createPayment (POSStore.splitPaymentInput orderId p) = .ok ())
    (hpoq : B.processOfflineQueue = .ok ())
    (hpop : B.processOfflinePayments = .ok ())
    (hcmi : B.createMenuItem draft = .ok it) :
    (POSStore.posBegin st).error = st.error ∧
    (POSStore.posBeginClear st).error = none ∧
    (POSStore.addOrder B st ord).state.error = st.error ∧
    (POSStore.updateOrderStatus B st orderId .completed).state.error = st.error ∧
    (POSStore.processPayment B st orderId amount method details now
      randSuffix).state.error = st.error ∧
    (POSStore.processSplitPayment B st orderId payments nowAt randAt).state.error =
      st.error ∧
    (POSStore.syncOfflineData B st).state.error = st.error ∧
    (POSStore.syncOfflinePayments B st).state.error = st.error ∧
    (POSStore.createMenuItem B st draft).state.error = none := by
  refine ⟨rfl, rfl, ?_, ?_, ?_, ?_, ?_, ?_, ?_⟩
  · simp [POSStore.addOrder, hco, hgo, hgm, POSStore.posBegin]
  · simp [POSStore.updateOrderStatus, hupd, POSStore.posBegin]
  · simp [POSStore.processPayment, POSStore.posBegin, hon, hcp, hupd, hgo]
  · simp [POSStore.processSplitPayment, POSStore.posBegin, hon,
      splitCreateCalls_all_ok B orderId payments hpay, hupd, hgo]
  · simp [POSStore.syncOfflineData, hpoq, hgm, hgo, POSStore.posBegin]
  · simp [POSStore.syncOfflinePayments, hpop, hgo, hgop, POSStore.posBegin]
  · simp [POSStore.createMenuItem, hcmi, POSStore.posBeginClear]

/-- Witness for the amended C9: a successful `addOrder` run preserves a
prior error while a successful `createMenuItem` run clears it. -/
theorem C9_witness :
    (POSStore.addOrder okB { posSt0 with error := some "prior" } []).state.error =
      some "prior" ∧
    (POSStore.createMenuItem okB { posSt0 with error := some "prior" }
      sampleDraft).state.error = none := by
  have h := C9_amended_first_step okB { posSt0 with error := some "prior" } []
    "o1" 20 "cash" {} 7 "ab12" [] (fun _ => 7) (fun _ => "ab12") sampleDraft
    sampleOrder [sampleOrder] [sampleItem] [] sampleItem
    rfl rfl rfl rfl rfl rfl rfl (fun p hp => absurd hp (List.not_mem_nil p)) rfl rfl rfl
  exact ⟨h.2.2.1, h.2.2.2.2.2.2.2.2⟩

/-- Mapping a replace-by-id function over a list with no matching id is
the identity. -/
theorem map_replace_id {α : Type} (xs : List α) (idOf : α → String) (t : String)
    (u : α) (h : ∀ x ∈ xs, idOf x ≠ t) :
    (xs.map fun x => if idOf x = t then u else x) = xs := by
  induction xs with
  | nil => rfl
  | cons a as ih =>
    rw [List.map_cons, if_neg (h a (List.mem_cons_self a as)),
      ih fun x hx => h x (List.mem_cons_of_mem a hx)]

/-- C10: the replace-by-id updates (`updateMenuItem`, `updateOrderStatus`,
`updateStaffMember`, `updateLocation`) preserve the collection's length,
replace exactly the positions whose id matches, leave every other position
unchanged, and — when no element carries the target id — leave the
collection entirely unchanged (the returned record is not inserted). -/
theorem C10_replace_by_id (B : Backend) (SB : StaffBackend) (LB : LocationBackend)
    (stP : POSState) (stS : StaffState) (stL : LocationState)
    (menuItemId orderId userId locId : String) (patchM patchS patchL : Patch)
    (status : OrderStatus) (um : MenuItem) (uo : Order) (us : User)
    (ul : RestaurantLocation)
    (hm : B.updateMenuItem menuItemId patchM = .ok um)
    (ho : B.updateOrderStatus orderId status = .ok uo)
    (hs : SB.updateStaffMember userId patchS = .ok us)
    (hl : LB.updateLocation locId patchL = .ok ul) :
    ((POSStore.updateMenuItem B stP menuItemId patchM).state.menuItems.length =
        stP.menuItems.length ∧
      (∀ i : Nat, (POSStore.updateMenuItem B stP menuItemId patchM).state.menuItems[i]? =
        (stP.menuItems[i]?).map fun item => if item.id = menuItemId then um else item) ∧
      ((∀ item ∈ stP.menuItems, item.id ≠ menuItemId) →
        (POSStore.updateMenuItem B stP menuItemId patchM).state.menuItems =
          stP.menuItems)) ∧
    ((POSStore.updateOrderStatus B stP orderId status).state.orders.length =
        stP.orders.length ∧
      (∀ i : Nat, (POSStore.updateOrderStatus B stP orderId status).state.orders[i]? =
        (stP.orders[i]?).map fun o => if o.id = orderId then uo else o) ∧
      ((∀ o ∈ stP.orders, o.id ≠ orderId) →
        (POSStore.updateOrderStatus B stP orderId status).state.orders = stP.orders)) ∧
    ((StaffStore.updateStaffMember SB stS userId patchS).state.staffMembers.length =
        stS.staffMembers.length ∧
      (∀ i : Nat,
        (StaffStore.updateStaffMember SB stS userId patchS).state.staffMembers[i]? =
          (stS.staffMembers[i]?).map fun member =>
            if member.id = userId then us else member) ∧
      ((∀ member ∈ stS.staffMembers, member.id ≠ userId) →
        (StaffStore.updateStaffMember SB stS userId patchS).state.staffMembers =
          stS.staffMembers)) ∧
    ((LocationStore.updateLocation LB stL locId patchL).state.locations.length =
        stL.locations.length ∧
      (∀ i : Nat, (LocationStore.updateLocation LB stL locId patchL).state.locations[i]? =
        (stL.locations[i]?).map fun location =>
          if location.id = locId then ul else location) ∧
      ((∀ location ∈ stL.locations, location.id ≠ locId) →
        (LocationStore.updateLocation LB stL locId patchL).state.locations =
          stL.locations)) := by
  have hrunM : (POSStore.updateMenuItem B stP menuItemId patchM).state.menuItems =
      stP.menuItems.map fun item => if item.id = menuItemId then um else item := by
    simp [POSStore.updateMenuItem, hm, POSStore.posBeginClear]
  have hrunO : (POSStore.updateOrderStatus B stP orderId status).state.orders =
      stP.orders.map fun o => if o.id = orderId then uo else o := by
    simp [POSStore.updateOrderStatus, ho, POSStore.posBegin]
  have hrunS : (StaffStore.updateStaffMember SB stS userId patchS).state.staffMembers =
      stS.staffMembers.map fun member => if member.id = userId then us else member := by
    simp [StaffStore.updateStaffMember, hs]
  have hrunL : (LocationStore.updateLocation LB stL locId patchL).state.locations =
      stL.locations.map fun location => if location.id = locId then ul else location := by
    simp [LocationStore.updateLocation, hl]
  refine ⟨⟨?_, ?_, ?_⟩, ⟨?_, ?_, ?_⟩, ⟨?_, ?_, ?_⟩, ⟨?_, ?_, ?_⟩⟩
  · rw [hrunM, List.length_map]
  · intro i; rw [hrunM, List.getElem?_map]
  · intro h; rw [hrunM]; exact map_replace_id stP.menuItems MenuItem.id menuItemId um h
  · rw [hrunO, List.length_map]
  · intro i; rw [hrunO, List.getElem?_map]
  · intro h; rw [hrunO]; exact map_replace_id stP.orders Order.id orderId uo h
  · rw [hrunS, List.length_map]
  · intro i; rw [hrunS, List.getElem?_map]
  · intro h; rw [hrunS]; exact map_replace_id stS.staffMembers User.id userId us h
  · rw [hrunL, List.length_map]
  · intro i; rw [hrunL, List.getElem?_map]
  · intro h; rw [hrunL]
    exact map_replace_id stL.locations RestaurantLocation.id locId ul h

/-- Witness for C10: with a target id matching nothing, all four update
operations leave their collections entirely unchanged. -/
theorem C10_witness :
    (POSStore.updateMenuItem okB posSt0 "zzz" []).state.menuItems = posSt0.menuItems ∧
    (POSStore.updateOrderStatus okB posSt0 "zzz" .completed).state.orders =
      posSt0.orders ∧
    (StaffStore.updateStaffMember okSB staffSt0 "zzz" []).state.staffMembers =
      staffSt0.staffMembers ∧
    (LocationStore.updateLocation okLB locSt0 "zzz" []).state.locations =
      locSt0.locations := by
  have h := C10_replace_by_id okB okSB okLB posSt0 staffSt0 locSt0
    "zzz" "zzz" "zzz" "zzz" [] [] [] .completed sampleItem sampleOrder sampleUser
    sampleLoc3 rfl rfl rfl rfl
  exact ⟨h.1.2.2 (by decide), h.2.1.2.2 (by decide), h.2.2.1.2.2 (by decide),
    h.2.2.2.2.2 (by decide)⟩

end POSApp
